import Mathlib

/-!
Verification of the route-planning core of the repository
(`src/Lazy/backend/app/services/route_planner.py`, class `RoutePlanner`).

Modelling decisions:

* Python floats are modelled as exact rationals (`ℚ`): every Python float is a
  rational number, and all arithmetic the planner performs on coordinates and
  distances (addition, division by constants, comparison, decimal rounding)
  is modelled exactly over `ℚ`.
* The planner calls `self._haversine_distance`, a float computation built from
  `math.sin`, `math.cos`, `math.atan2`, `math.sqrt`.  Inside the planner this
  function is an opaque rational-valued oracle, so `plan_route` and
  `_optimize_route` are modelled parametrically in a distance function
  `dist : Coord → Coord → ℚ`; every theorem about the planner below is proved
  for an arbitrary `dist` and therefore holds for the float haversine in
  particular.  The haversine formula itself is modelled separately over `ℝ`
  (`haversine_distance` below), as the real-number idealization of the float
  code.
* `Python`'s generic string `hash` is salted per process; the code only uses
  `hash(label) % 10000`.  It is modelled as a parameter `hashFn : String → ℤ`.
* Python dictionaries produced and consumed by the planner are modelled as
  structures whose `Option` fields record key presence (`none` = key absent).
* Python exceptions (`float("abc")` raising `ValueError`) are modelled with
  `Except String`.
-/

/-- A Python scalar value as it can appear under a coordinate key:
`None`, a number (int or float, modelled as `ℚ`), or a string. -/
inductive PyVal where
  | none : PyVal
  | num : ℚ → PyVal
  | str : String → PyVal
deriving DecidableEq, Repr

/-- Python truthiness of a scalar: `None` is falsy, a number is falsy iff it
is zero, a string is falsy iff it is empty. -/
def PyVal.truthy : PyVal → Bool
  | .none => false
  | .num q => q ≠ 0
  | .str s => s ≠ ""

/-- Python `a or b` on scalars: returns `a` when `a` is truthy, else `b`. -/
def pyOr (a b : PyVal) : PyVal :=
  if a.truthy then a else b

/-- Digit-list to natural number accumulator (helper for `parseFloatStr`). -/
def digitsToNat : List Char → ℕ → Option ℕ
  | [], acc => some acc
  | c :: cs, acc =>
    if c.isDigit then digitsToNat cs (acc * 10 + (c.toNat - 48)) else Option.none

/-- Model of Python `float(string)` parsing, simplified to an optional sign,
integer digits and an optional fractional part.  Exponents, `inf`/`nan` and
whitespace trimming are omitted; no claim depends on them — the claims only
need that numeric strings parse and that a string such as `"abc"` fails. -/
def parseFloatStr (s : String) : Option ℚ :=
  let signBody : ℚ × List Char :=
    match s.data with
    | '-' :: cs => (-1, cs)
    | '+' :: cs => (1, cs)
    | cs => (1, cs)
  let sign := signBody.1
  let cs := signBody.2
  let intDigits := cs.takeWhile Char.isDigit
  let rest := cs.dropWhile Char.isDigit
  match rest with
  | [] =>
    if intDigits.isEmpty then Option.none
    else (digitsToNat intDigits 0).map (fun n => sign * n)
  | '.' :: fracRest =>
    let fracDigits := fracRest.takeWhile Char.isDigit
    let tail := fracRest.dropWhile Char.isDigit
    if tail.isEmpty && !(intDigits.isEmpty && fracDigits.isEmpty) then
      match digitsToNat intDigits 0, digitsToNat fracDigits 0 with
      | some n, some f =>
        some (sign * ((n : ℚ) + (f : ℚ) / (10 ^ fracDigits.length)))
      | _, _ => Option.none
    else Option.none
  | _ => Option.none

/-- Model of Python `float(x)`: a number converts to itself, a string is
parsed (raising `ValueError` when it cannot be parsed), `None` raises
`TypeError`. -/
def pyFloat : PyVal → Except String ℚ
  | .num q => .ok q
  | .str s =>
    match parseFloatStr s with
    | some q => .ok q
    | Option.none => .error ("could not convert string to float: " ++ s)
  | .none => .error "float() argument must be a string or a real number, not NoneType"

/-- Round-half-to-even on rationals (the rounding Python `round` uses). -/
def round_half_even (q : ℚ) : ℤ :=
  let f := ⌊q⌋
  let r := q - f
  if r < 1 / 2 then f
  else if 1 / 2 < r then f + 1
  else if f % 2 = 0 then f else f + 1

/-- Model of Python `round(x, 2)`: round to a multiple of `1 / 100`,
half-to-even. -/
def round2 (q : ℚ) : ℚ :=
  (round_half_even (q * 100) : ℚ) / 100

/-- Model of Python `int(x)` on a float: truncation toward zero. -/
def pyInt (q : ℚ) : ℤ :=
  if 0 ≤ q then ⌊q⌋ else ⌈q⌉

/-- A latitude/longitude pair (Python 2-tuple of floats). -/
abbrev Coord := ℚ × ℚ

/-- The `location_coordinates` dictionary of a task.  Each field is `none`
when the corresponding key is absent; `some v` when the key is present with
scalar value `v` (which may itself be Python `None`). -/
structure CoordDict where
  lat : Option PyVal := Option.none
  latitude : Option PyVal := Option.none
  lng : Option PyVal := Option.none
  longitude : Option PyVal := Option.none
  lon : Option PyVal := Option.none
deriving DecidableEq, Repr

/-- Python truthiness of the coordinates dictionary: truthy iff non-empty
(at least one key present). -/
def CoordDict.truthy (c : CoordDict) : Bool :=
  c.lat.isSome || c.latitude.isSome || c.lng.isSome || c.longitude.isSome || c.lon.isSome

/-- The latitude value the planner resolves:
`coords.get("lat") or coords.get("latitude")`. -/
def resolved_lat (c : CoordDict) : PyVal :=
  pyOr (c.lat.getD .none) (c.latitude.getD .none)

/-- The longitude value the planner resolves:
`coords.get("lng") or coords.get("longitude") or coords.get("lon")`. -/
def resolved_lng (c : CoordDict) : PyVal :=
  pyOr (c.lng.getD .none) (pyOr (c.longitude.getD .none) (c.lon.getD .none))

/-- An input task record, with the fields the planner consumes.  `Option`
fields are `none` when the key is absent from the task dictionary. -/
structure LocationTask where
  id : String := ""
  title : Option String := Option.none
  location : Option String := Option.none
  location_coordinates : Option CoordDict := Option.none
  estimated_duration_minutes : Option ℚ := Option.none
deriving DecidableEq, Repr

/-- The planner's eligibility filter
`task.get("location") or task.get("location_coordinates")` (Python
truthiness: an absent or empty location string is falsy, an absent or empty
coordinates dictionary is falsy). -/
def LocationTask.locatable (t : LocationTask) : Bool :=
  (t.location.getD "") ≠ "" || (t.location_coordinates.map CoordDict.truthy).getD false

/-- An entry of the internal `task_points` list: the task together with its
resolved coordinates. -/
structure TaskPoint where
  task : LocationTask
  coordinates : Coord
deriving DecidableEq, Repr

/-- A stop of the returned route: a `task_points` entry spread into a fresh
dictionary with the added `distance_from_previous_km` key. -/
structure RoutePoint where
  task : LocationTask
  coordinates : Coord
  distance_from_previous_km : ℚ
deriving DecidableEq, Repr

/-- The underlying `task_points` entry of a route stop. -/
def RoutePoint.toPoint (s : RoutePoint) : TaskPoint :=
  ⟨s.task, s.coordinates⟩

/-- The dictionary `plan_route` returns.  Fields that some branches leave out
of the dictionary are `Option`s (`none` = key absent). -/
structure PlanResult where
  optimized : Bool
  message : String
  tasks : Option (List LocationTask) := Option.none
  route : Option (List RoutePoint) := Option.none
  total_distance_km : Option ℚ := Option.none
  estimated_time_minutes : Option ℤ := Option.none
  task_count : Option ℕ := Option.none
deriving DecidableEq, Repr

namespace RoutePlanner

/-- `RoutePlanner._generate_mock_coordinates`: deterministic pseudo-coordinates
from the hash of the location label.  Python `%` on ints is `Int.emod`
(non-negative result for a positive modulus) and `//` on the resulting
non-negative value coincides with `Int.ediv`. -/
def generate_mock_coordinates (hashFn : String → ℤ) (location_name : String) : Coord :=
  let hash_val := Int.emod (hashFn location_name) 10000
  ((37.7749 : ℚ) + ((Int.emod hash_val 100 : ℤ) : ℚ) / 1000,
   (-122.4194 : ℚ) + ((Int.emod (Int.ediv hash_val 100) 100 : ℤ) : ℚ) / 1000)

/-- One iteration of the coordinate-extraction loop body of
`RoutePlanner.plan_route` (lines 56–72): for a task with a truthy coordinates
dictionary, resolve `lat`/`lng`, and when both are truthy convert them with
`float` (which can raise); when one is falsy the task produces no point at
all; for a task without a truthy coordinates dictionary, fall back to mock
coordinates derived from the location label. -/
def extract_task_point (hashFn : String → ℤ) (task : LocationTask) : Except String (Option TaskPoint) :=
  match task.location_coordinates with
  | some coords =>
    if coords.truthy then
      let lat := resolved_lat coords
      let lng := resolved_lng coords
      if lat.truthy && lng.truthy then
        match pyFloat lat with
        | .error e => .error e
        | .ok la =>
          match pyFloat lng with
          | .error e => .error e
          | .ok ln => .ok (some ⟨task, (la, ln)⟩)
      else .ok Option.none
    else .ok (some ⟨task, generate_mock_coordinates hashFn (task.location.getD "")⟩)
  | Option.none => .ok (some ⟨task, generate_mock_coordinates hashFn (task.location.getD "")⟩)

/-- The coordinate-extraction loop of `RoutePlanner.plan_route` over the
filtered `location_tasks`, in order; the first raising conversion aborts the
whole loop, exactly as a Python exception would. -/
def extract_points (hashFn : String → ℤ) : List LocationTask → Except String (List TaskPoint)
  | [] => .ok []
  | t :: ts =>
    match extract_task_point hashFn t with
    | .error e => .error e
    | .ok p =>
      match extract_points hashFn ts with
      | .error e => .error e
      | .ok rest =>
        .ok (match p with
             | some pt => pt :: rest
             | Option.none => rest)

/-- The inner scan of `RoutePlanner._optimize_route` (lines 138–151):
`for i, point in enumerate(remaining[1:], 1): if distance < nearest_distance:`
— the running best index/distance is replaced only on a strictly smaller
distance. -/
def scan_nearest (dist : Coord → Coord → ℚ) (current : Coord) :
    List TaskPoint → ℕ → ℕ → ℚ → ℕ × ℚ
  | [], _, bestIdx, bestDist => (bestIdx, bestDist)
  | p :: rest, i, bestIdx, bestDist =>
    let d := dist current p.coordinates
    if d < bestDist then scan_nearest dist current rest (i + 1) i d
    else scan_nearest dist current rest (i + 1) bestIdx bestDist

theorem scan_nearest_fst_lt (dist : Coord → Coord → ℚ) (current : Coord) :
    ∀ (pts : List TaskPoint) (i bestIdx : ℕ) (bestDist : ℚ),
      bestIdx < i → (scan_nearest dist current pts i bestIdx bestDist).1 < i + pts.length := by
  intro pts
  induction pts with
  | nil => intro i b d hb; simpa [scan_nearest] using hb
  | cons p rest ih =>
    intro i b d hb
    simp only [scan_nearest]
    by_cases h : dist current p.coordinates < d
    · simp only [h, if_pos]
      have := ih (i + 1) i (dist current p.coordinates) (Nat.lt_succ_self i)
      simpa [Nat.add_comm, Nat.add_left_comm, Nat.add_assoc] using this
    · simp only [h, if_neg, not_false_iff]
      have := ih (i + 1) b d (Nat.lt_succ_of_lt hb)
      simpa [Nat.add_comm, Nat.add_left_comm, Nat.add_assoc] using this

/-- One structural layer of the nearest-neighbor while-loop of
`RoutePlanner._optimize_route` (lines 137–159): while tasks remain, scan for
the nearest one (seeding the scan with the first remaining task), pop it,
append it to the route with its distance rounded to 2 decimals, and continue
from its coordinates.  The recursion is structural on a fuel bound; the loop
removes exactly one remaining task per iteration, so fuel `remaining.length`
(as used by `nn_loop` below) runs the loop to completion — `nn_loop_cons`
below proves the loop's step equation with no fuel in sight. -/
def nn_loop_fuel (dist : Coord → Coord → ℚ) : ℕ → Coord → List TaskPoint → List RoutePoint
  | 0, _, _ => []
  | _ + 1, _, [] => []
  | fuel + 1, current, r0 :: rest =>
    let s := scan_nearest dist current rest 1 0 (dist current r0.coordinates)
    let next := (r0 :: rest).getD s.1 r0
    ⟨next.task, next.coordinates, round2 s.2⟩ ::
      nn_loop_fuel dist fuel next.coordinates ((r0 :: rest).eraseIdx s.1)

/-- The `while remaining:` loop of `RoutePlanner._optimize_route`, returning
the list of stops the loop appends. -/
def nn_loop (dist : Coord → Coord → ℚ) (current : Coord)
    (remaining : List TaskPoint) : List RoutePoint :=
  nn_loop_fuel dist remaining.length current remaining

/-- The chosen index is always in range of the nonempty remaining list. -/
theorem scan_nearest_fst_lt_cons (dist : Coord → Coord → ℚ) (current : Coord)
    (r0 : TaskPoint) (rest : List TaskPoint) :
    (scan_nearest dist current rest 1 0 (dist current r0.coordinates)).1 <
      (r0 :: rest).length := by
  have h := scan_nearest_fst_lt dist current rest 1 0 (dist current r0.coordinates)
    Nat.zero_lt_one
  simpa [List.length_cons, Nat.add_comm] using h

/-- Any two sufficient fuel values run the loop to the same result. -/
theorem nn_loop_fuel_congr (dist : Coord → Coord → ℚ) :
    ∀ (f₁ f₂ : ℕ) (current : Coord) (rem : List TaskPoint),
      rem.length ≤ f₁ → rem.length ≤ f₂ →
      nn_loop_fuel dist f₁ current rem = nn_loop_fuel dist f₂ current rem := by
  intro f₁
  induction f₁ with
  | zero =>
    intro f₂ current rem h1 h2
    have hnil : rem = [] := List.eq_nil_of_length_eq_zero (Nat.le_zero.mp h1)
    subst hnil
    cases f₂ <;> rfl
  | succ f ih =>
    intro f₂ current rem h1 h2
    cases rem with
    | nil => cases f₂ <;> rfl
    | cons r0 rest =>
      cases f₂ with
      | zero => simp at h2
      | succ f₂' =>
        simp only [nn_loop_fuel]
        congr 1
        have hidx := scan_nearest_fst_lt_cons dist current r0 rest
        have hlen := List.length_eraseIdx_add_one hidx
        apply ih
        · simp only [List.length_cons] at h1 hlen
          omega
        · simp only [List.length_cons] at h2 hlen
          omega

/-- `RoutePlanner._optimize_route` (lines 110–161): with a start location all
tasks remain and the loop runs from the start point; without one the route is
seeded with the first task (hop distance `0.0`) and the loop runs over the
rest.  Python's `if start_location:` is a `None` test here, since any 2-tuple
is truthy. -/
def optimize_route (dist : Coord → Coord → ℚ) (task_points : List TaskPoint)
    (start_location : Option Coord) : List RoutePoint :=
  match task_points with
  | [] => []
  | tp0 :: rest =>
    match start_location with
    | some s => nn_loop dist s (tp0 :: rest)
    | Option.none =>
      ⟨tp0.task, tp0.coordinates, 0⟩ :: nn_loop dist tp0.coordinates rest

/-- `RoutePlanner._calculate_total_distance` (lines 193–198): sum of the
stops' `distance_from_previous_km` values (every stop carries the key). -/
def calculate_total_distance (route : List RoutePoint) : ℚ :=
  route.foldl (fun acc p => acc + p.distance_from_previous_km) 0

/-- `RoutePlanner._estimate_total_time` (lines 200–222): travel time at
40 km/h in minutes, plus per-task durations (default 15), plus a 5-minute
per-stop buffer, truncated to an integer. -/
def estimate_total_time (route : List RoutePoint) (total_distance_km : ℚ) : ℤ :=
  let travel_time_minutes := total_distance_km / 40 * 60
  let task_time :=
    route.foldl (fun acc p => acc + p.task.estimated_duration_minutes.getD 15) 0
  let buffer_time := (route.length : ℚ) * 5
  pyInt (travel_time_minutes + task_time + buffer_time)

/-- `RoutePlanner.plan_route` (lines 24–95), parametric in the distance
oracle `dist` (the float haversine) and the string hash `hashFn`. -/
def plan_route (dist : Coord → Coord → ℚ) (hashFn : String → ℤ)
    (tasks : List LocationTask) (start_location : Option Coord) : Except String PlanResult :=
  let location_tasks := tasks.filter LocationTask.locatable
  if location_tasks.length < 2 then
    .ok { optimized := false
          message := "Need at least 2 tasks with locations to plan a route"
          tasks := some location_tasks
          total_distance_km := some 0
          estimated_time_minutes := some 0 }
  else
    match extract_points hashFn location_tasks with
    | .error e => .error e
    | .ok task_points =>
      if task_points.length < 2 then
        .ok { optimized := false
              message := "Could not extract location data for route planning"
              tasks := some location_tasks }
      else
        let optimized_route := optimize_route dist task_points start_location
        let total_distance := calculate_total_distance optimized_route
        let estimated_time := estimate_total_time optimized_route total_distance
        .ok { optimized := true
              route := some optimized_route
              total_distance_km := some (round2 total_distance)
              estimated_time_minutes := some estimated_time
              task_count := some optimized_route.length
              message := "Optimized route for " ++ toString optimized_route.length ++ " errands" }

/-- `RoutePlanner.format_route_for_display` (lines 224–253).  The numeric
rendering of distances/times uses Lean's rational `toString` in place of
Python's float formatting; no claim depends on the digits produced. -/
def format_route_for_display (route_data : PlanResult) : String :=
  if !route_data.optimized then
    route_data.message
  else
    match route_data.route.getD [] with
    | [] => "No route generated"
    | r0 :: rrest =>
      let route := r0 :: rrest
      let header :=
        ["📍 Optimized Route (" ++ toString route.length ++ " stops)",
         "Total distance: " ++ toString (route_data.total_distance_km.getD 0) ++ " km",
         "Estimated time: " ++ toString (route_data.estimated_time_minutes.getD 0) ++ " minutes",
         "",
         "Route order:"]
      let stopLines := route.enum.map (fun ip =>
        let i := ip.1 + 1
        let task := ip.2.task
        let distance := ip.2.distance_from_previous_km
        let location := if (task.location.getD "") ≠ "" then task.location.getD "" else "Location"
        if i = 1 then
          toString i ++ ". " ++ task.title.getD "Task" ++ " - " ++ location
        else
          toString i ++ ". " ++ task.title.getD "Task" ++ " - " ++ location ++
            " (" ++ toString distance ++ " km away)")
      String.intercalate "\n" (header ++ stopLines)

end RoutePlanner

/-- A simple computable distance oracle (taxicab distance) used to
instantiate the parametric planner theorems on concrete inputs. -/
def unitDist (p q : Coord) : ℚ := |q.1 - p.1| + |q.2 - p.2|

/-- A trivial stand-in for Python's process-salted string hash. -/
def zeroHash : String → ℤ := fun _ => 0

/-- Concrete task at coordinates `(1, 1)` taking 15 minutes. -/
def taskA : LocationTask :=
  { id := "A",
    location_coordinates :=
      some { lat := some (.num 1), lng := some (.num 1) },
    estimated_duration_minutes := some 15 }

/-- Concrete task at coordinates `(11, 1)` taking 15 minutes. -/
def taskB : LocationTask :=
  { id := "B",
    location_coordinates :=
      some { lat := some (.num 11), lng := some (.num 1) },
    estimated_duration_minutes := some 15 }

/-- Concrete task at coordinates `(2, 2)`. -/
def taskC : LocationTask :=
  { id := "C",
    location_coordinates :=
      some { lat := some (.num 2), lng := some (.num 2) } }

/-- Concrete locatable task whose coordinates dictionary is truthy but whose
resolved latitude is the falsy number `0`. -/
def taskZeroLat : LocationTask :=
  { id := "Z",
    location_coordinates :=
      some { lat := some (.num 0), lng := some (.num 2) } }

/-- A second such task (longitude `3`). -/
def taskZeroLat' : LocationTask :=
  { id := "Z2",
    location_coordinates :=
      some { lat := some (.num 0), lng := some (.num 3) } }

/-- Concrete locatable task whose latitude value is the unparsable string
`"abc"`. -/
def taskBadCoord : LocationTask :=
  { id := "Bad",
    location_coordinates :=
      some { lat := some (.str "abc"), lng := some (.str "2") } }

/-- Concrete task located only by a free-text label (mock-coordinate path). -/
def taskPlain : LocationTask :=
  { id := "P", location := some "store" }

/-- A task is silently dropped by the extraction loop exactly when its
coordinates dictionary is present and truthy but the resolved latitude or
longitude value is falsy (missing under all accepted spellings, Python
`None`, the number `0`, or the empty string): the inner
`if lat and lng:` has no `else`, so such a task produces no point, no
fallback and no error. -/
def dropped_coords (t : LocationTask) : Bool :=
  match t.location_coordinates with
  | some c => c.truthy && (!(resolved_lat c).truthy || !(resolved_lng c).truthy)
  | Option.none => false

namespace RoutePlanner

/-- Model of Python `math.atan2 y x` over the reals. -/
noncomputable def atan2 (y x : ℝ) : ℝ :=
  if 0 < x then Real.arctan (y / x)
  else if x < 0 then
    (if 0 ≤ y then Real.arctan (y / x) + Real.pi else Real.arctan (y / x) - Real.pi)
  else
    (if 0 < y then Real.pi / 2 else if y < 0 then -(Real.pi / 2) else 0)

/-- Model of Python `math.radians`. -/
noncomputable def radians (x : ℝ) : ℝ := x * Real.pi / 180

/-- The intermediate `a` of `RoutePlanner._haversine_distance`
(lines 185–187): `sin²(Δlat/2) + cos(lat1)·cos(lat2)·sin²(Δlon/2)`. -/
noncomputable def hav_a (point1 point2 : ℝ × ℝ) : ℝ :=
  Real.sin (radians (point2.1 - point1.1) / 2) ^ 2 +
    Real.cos (radians point1.1) * Real.cos (radians point2.1) *
      Real.sin (radians (point2.2 - point1.2) / 2) ^ 2

/-- `RoutePlanner._haversine_distance` (lines 163–191), as the real-number
idealization of the float code: Earth radius `R = 6371.0`,
`c = 2·atan2(√a, √(1−a))`, result `R·c`. -/
noncomputable def haversine_distance (point1 point2 : ℝ × ℝ) : ℝ :=
  let a := hav_a point1 point2
  let c := 2 * atan2 (Real.sqrt a) (Real.sqrt (1 - a))
  6371.0 * c

/-- The haversine formula exactly as the spec words it (section 4.2):
`a = sin²(Δlat/2) + cos(lat1)·cos(lat2)·sin²(Δlon/2)`,
`c = 2·atan2(√a, √(1−a))`, `distance_km = R·c` with `R = 6371.0`;
stated from the spec's words for comparison with the source function. -/
noncomputable def haversine_spec (p1 p2 : ℝ × ℝ) : ℝ :=
  let a := Real.sin (radians (p2.1 - p1.1) / 2) ^ 2 +
    Real.cos (radians p1.1) * Real.cos (radians p2.1) *
      Real.sin (radians (p2.2 - p1.2) / 2) ^ 2
  let c := 2 * atan2 (Real.sqrt a) (Real.sqrt (1 - a))
  6371.0 * c

end RoutePlanner

/-- The extracted point of `taskA`. -/
def pointA : TaskPoint := ⟨taskA, (1, 1)⟩

/-- The extracted point of `taskB`. -/
def pointB : TaskPoint := ⟨taskB, (11, 1)⟩

/-- The first stop `plan_route` produces for `[taskA, taskB]` (hop 0). -/
def stopA : RoutePoint := ⟨taskA, (1, 1), 0⟩

/-- The second stop `plan_route` produces for `[taskA, taskB]` (hop 10 under
`unitDist`). -/
def stopB : RoutePoint := ⟨taskB, (11, 1), 10⟩

/-- The route `plan_route unitDist zeroHash [taskA, taskB] none` produces. -/
def routeAB : List RoutePoint := [stopA, stopB]

/-- The full result of `plan_route unitDist zeroHash [taskA, taskB] none`. -/
def resultAB : PlanResult :=
  { optimized := true
    message := "Optimized route for 2 errands"
    route := some routeAB
    total_distance_km := some 10
    estimated_time_minutes := some 55
    task_count := some 2 }

/-- The result of `plan_route` on an empty task list. -/
def resultEmpty : PlanResult :=
  { optimized := false
    message := "Need at least 2 tasks with locations to plan a route"
    tasks := some []
    total_distance_km := some 0
    estimated_time_minutes := some 0 }

namespace RoutePlanner

/-- Full specification of the inner scan: starting from a best candidate
`(b, d)` that is the first strict minimum of the prefix `g 0 … g (i-1)`,
the scan returns the first strict minimum of the whole indexed family.
`g` abstracts the distances of the original `remaining` list and `pts` is its
suffix from index `i`. -/
theorem scan_nearest_spec (dist : Coord → Coord → ℚ) (current : Coord) (g : ℕ → ℚ) :
    ∀ (pts : List TaskPoint) (i b : ℕ) (d : ℚ),
      (∀ k p, pts[k]? = some p → dist current p.coordinates = g (i + k)) →
      b < i → d = g b →
      (∀ j, j < b → d < g j) →
      (∀ j, b ≤ j → j < i → d ≤ g j) →
      (scan_nearest dist current pts i b d).1 < i + pts.length ∧
      (scan_nearest dist current pts i b d).2 = g (scan_nearest dist current pts i b d).1 ∧
      (∀ j, j < (scan_nearest dist current pts i b d).1 →
        (scan_nearest dist current pts i b d).2 < g j) ∧
      (∀ j, j < i + pts.length → (scan_nearest dist current pts i b d).2 ≤ g j) := by
  intro pts
  induction pts with
  | nil =>
    intro i b d hg hb hd hstrict hweak
    refine ⟨by simpa using hb, hd, fun j hj => hstrict j hj, fun j hj => ?_⟩
    have hj' : j < i := by simpa using hj
    rcases Nat.lt_or_ge j b with hjb | hjb
    · exact le_of_lt (hstrict j hjb)
    · exact hweak j hjb hj'
  | cons p rest ih =>
    intro i b d hg hb hd hstrict hweak
    have hx : dist current p.coordinates = g i := by
      have h0 := hg 0 p (by simp)
      simpa using h0
    have hshift : ∀ k q, rest[k]? = some q → dist current q.coordinates = g (i + 1 + k) := by
      intro k q hk
      have h := hg (k + 1) q (by simpa using hk)
      rw [show i + (k + 1) = i + 1 + k by omega] at h
      exact h
    simp only [scan_nearest]
    by_cases hlt : dist current p.coordinates < d
    · simp only [if_pos hlt]
      obtain ⟨h1, h2, h3, h4⟩ :=
        ih (i + 1) i (dist current p.coordinates) hshift (Nat.lt_succ_self i) hx
          (fun j hj => by
            rcases Nat.lt_or_ge j b with hjb | hjb
            · exact lt_trans hlt (hstrict j hjb)
            · exact lt_of_lt_of_le hlt (hweak j hjb hj))
          (fun j hj1 hj2 => by
            have hji : j = i := by omega
            subst hji
            exact le_of_eq hx)
      refine ⟨?_, h2, h3, ?_⟩
      · simp only [List.length_cons]
        omega
      · intro j hj
        apply h4
        simp only [List.length_cons] at hj
        omega
    · simp only [if_neg hlt]
      obtain ⟨h1, h2, h3, h4⟩ :=
        ih (i + 1) b d hshift (Nat.lt_succ_of_lt hb) hd hstrict
          (fun j hj1 hj2 => by
            rcases Nat.lt_or_ge j i with hji | hji
            · exact hweak j hj1 hji
            · have hji' : j = i := by omega
              subst hji'
              have hdx : d ≤ dist current p.coordinates := le_of_not_lt hlt
              rwa [hx] at hdx)
      refine ⟨?_, h2, h3, ?_⟩
      · simp only [List.length_cons]
        omega
      · intro j hj
        apply h4
        simp only [List.length_cons] at hj
        omega

/-- The scan over nonempty `remaining = r0 :: rest`, seeded as in the source
(`nearest_idx = 0`, `nearest_distance = dist(current, remaining[0])`), picks
the first index of `remaining` attaining the minimum distance. -/
theorem scan_nearest_choice (dist : Coord → Coord → ℚ) (current : Coord)
    (r0 : TaskPoint) (rest : List TaskPoint) :
    (scan_nearest dist current rest 1 0 (dist current r0.coordinates)).1 <
      (r0 :: rest).length ∧
    (scan_nearest dist current rest 1 0 (dist current r0.coordinates)).2 =
      dist current
        (((r0 :: rest).getD
            (scan_nearest dist current rest 1 0 (dist current r0.coordinates)).1
            r0).coordinates) ∧
    (∀ j, j < (scan_nearest dist current rest 1 0 (dist current r0.coordinates)).1 →
      (scan_nearest dist current rest 1 0 (dist current r0.coordinates)).2 <
        dist current (((r0 :: rest).getD j r0).coordinates)) ∧
    (∀ j, j < (r0 :: rest).length →
      (scan_nearest dist current rest 1 0 (dist current r0.coordinates)).2 ≤
        dist current (((r0 :: rest).getD j r0).coordinates)) := by
  have hmain :=
    scan_nearest_spec dist current
      (fun j => dist current (((r0 :: rest).getD j r0).coordinates)) rest 1 0
      (dist current r0.coordinates)
      (by
        intro k p hk
        have hgetD : (r0 :: rest).getD (1 + k) r0 = p := by
          rw [show 1 + k = k + 1 by omega]
          simp only [List.getD_cons_succ]
          simp [List.getD, hk]
        show dist current p.coordinates =
          dist current (((r0 :: rest).getD (1 + k) r0).coordinates)
        rw [hgetD])
      Nat.zero_lt_one
      (by simp [List.getD_cons_zero])
      (fun j hj => absurd hj (Nat.not_lt_zero j))
      (fun j hj1 hj2 => by
        have hj0 : j = 0 := by omega
        subst hj0
        simp [List.getD_cons_zero])
  obtain ⟨h1, h2, h3, h4⟩ := hmain
  refine ⟨by simpa [Nat.add_comm] using h1, h2, h3, fun j hj => h4 j ?_⟩
  simp only [List.length_cons] at hj
  omega

end RoutePlanner

namespace RoutePlanner

/-- Unfolding equation of one iteration of the nearest-neighbor loop. -/
theorem nn_loop_cons (dist : Coord → Coord → ℚ) (current : Coord)
    (r0 : TaskPoint) (rest : List TaskPoint) :
    nn_loop dist current (r0 :: rest) =
      ⟨((r0 :: rest).getD
          (scan_nearest dist current rest 1 0 (dist current r0.coordinates)).1 r0).task,
       ((r0 :: rest).getD
          (scan_nearest dist current rest 1 0 (dist current r0.coordinates)).1 r0).coordinates,
       round2 (scan_nearest dist current rest 1 0 (dist current r0.coordinates)).2⟩ ::
      nn_loop dist
        (((r0 :: rest).getD
            (scan_nearest dist current rest 1 0 (dist current r0.coordinates)).1 r0).coordinates)
        ((r0 :: rest).eraseIdx
          (scan_nearest dist current rest 1 0 (dist current r0.coordinates)).1) := by
  show nn_loop_fuel dist (r0 :: rest).length current (r0 :: rest) = _
  simp only [List.length_cons, nn_loop_fuel]
  congr 1
  apply nn_loop_fuel_congr
  · have hidx := scan_nearest_fst_lt_cons dist current r0 rest
    have hlen := List.length_eraseIdx_add_one hidx
    simp only [List.length_cons] at hlen
    omega
  · exact le_rfl

end RoutePlanner

/-- C1: for every planning invocation with at least 2 coordinate-resolved
tasks, the route is built greedily.  At each iteration of the
nearest-neighbor loop (any current location and nonempty remaining list
`r0 :: rest`), the scan's chosen index is in range, its distance is the
distance from the current location to the chosen task, that distance is
minimal among all remaining tasks (index `j`), every task strictly before
the chosen one is at a strictly larger distance (so on ties the earlier
entry of the remaining list wins, the scan replacing the candidate only on a
strictly smaller distance), and the loop appends exactly the chosen task,
whose coordinates become the current location of the recursive call. -/
theorem nn_loop_greedy_step (dist : Coord → Coord → ℚ) (current : Coord)
    (r0 : TaskPoint) (rest : List TaskPoint) (j : ℕ)
    (hj : j < (r0 :: rest).length) :
    (RoutePlanner.scan_nearest dist current rest 1 0 (dist current r0.coordinates)).1 <
      (r0 :: rest).length ∧
    (RoutePlanner.scan_nearest dist current rest 1 0 (dist current r0.coordinates)).2 =
      dist current
        (((r0 :: rest).getD
            (RoutePlanner.scan_nearest dist current rest 1 0 (dist current r0.coordinates)).1
            r0).coordinates) ∧
    (RoutePlanner.scan_nearest dist current rest 1 0 (dist current r0.coordinates)).2 ≤
      dist current (((r0 :: rest).getD j r0).coordinates) ∧
    (j < (RoutePlanner.scan_nearest dist current rest 1 0 (dist current r0.coordinates)).1 →
      (RoutePlanner.scan_nearest dist current rest 1 0 (dist current r0.coordinates)).2 <
        dist current (((r0 :: rest).getD j r0).coordinates)) ∧
    RoutePlanner.nn_loop dist current (r0 :: rest) =
      ⟨((r0 :: rest).getD
          (RoutePlanner.scan_nearest dist current rest 1 0 (dist current r0.coordinates)).1
          r0).task,
       ((r0 :: rest).getD
          (RoutePlanner.scan_nearest dist current rest 1 0 (dist current r0.coordinates)).1
          r0).coordinates,
       round2
         (RoutePlanner.scan_nearest dist current rest 1 0 (dist current r0.coordinates)).2⟩ ::
      RoutePlanner.nn_loop dist
        (((r0 :: rest).getD
            (RoutePlanner.scan_nearest dist current rest 1 0 (dist current r0.coordinates)).1
            r0).coordinates)
        ((r0 :: rest).eraseIdx
          (RoutePlanner.scan_nearest dist current rest 1 0 (dist current r0.coordinates)).1) := by
  obtain ⟨h1, h2, h3, h4⟩ := RoutePlanner.scan_nearest_choice dist current r0 rest
  exact ⟨h1, h2, h4 j hj, fun hlt => h3 j hlt,
    RoutePlanner.nn_loop_cons dist current r0 rest⟩

namespace RoutePlanner

/-- Removing the element at a valid index and putting it in front is a
permutation. -/
theorem getD_cons_eraseIdx_perm {α : Type} :
    ∀ (l : List α) (i : ℕ) (d : α), i < l.length →
      l.Perm (l.getD i d :: l.eraseIdx i) := by
  intro l
  induction l with
  | nil => intro i d h; simp at h
  | cons a t ih =>
    intro i d h
    cases i with
    | zero => simp [List.getD_cons_zero, List.eraseIdx]
    | succ n =>
      have hn : n < t.length := by simpa using h
      have hperm := (ih n d hn).cons a
      simp only [List.getD_cons_succ, List.eraseIdx]
      exact hperm.trans (List.Perm.swap (t.getD n d) a (t.eraseIdx n))

/-- The stops the nearest-neighbor loop emits are a permutation of the
remaining points it consumes. -/
theorem nn_loop_perm (dist : Coord → Coord → ℚ) :
    ∀ (n : ℕ) (rem : List TaskPoint) (current : Coord), rem.length ≤ n →
      ((nn_loop dist current rem).map RoutePoint.toPoint).Perm rem := by
  intro n
  induction n with
  | zero =>
    intro rem current h
    have hnil : rem = [] := List.eq_nil_of_length_eq_zero (Nat.le_zero.mp h)
    subst hnil
    simp [nn_loop, nn_loop_fuel]
  | succ n ih =>
    intro rem current h
    cases rem with
    | nil => simp [nn_loop, nn_loop_fuel]
    | cons r0 rest =>
      rw [nn_loop_cons]
      simp only [List.map_cons]
      have h1 := (scan_nearest_choice dist current r0 rest).1
      have herase :
          ((r0 :: rest).eraseIdx
            (scan_nearest dist current rest 1 0 (dist current r0.coordinates)).1).length ≤ n := by
        have h2 := List.length_eraseIdx_add_one h1
        simp only [List.length_cons] at h2 h ⊢
        omega
      have hrec := ih
        ((r0 :: rest).eraseIdx
          (scan_nearest dist current rest 1 0 (dist current r0.coordinates)).1)
        (((r0 :: rest).getD
            (scan_nearest dist current rest 1 0 (dist current r0.coordinates)).1
            r0).coordinates)
        herase
      exact (hrec.cons _).trans
        (getD_cons_eraseIdx_perm (r0 :: rest)
          (scan_nearest dist current rest 1 0 (dist current r0.coordinates)).1 r0 h1).symm

/-- The optimized route is a permutation of the extracted task points. -/
theorem optimize_route_perm (dist : Coord → Coord → ℚ) (pts : List TaskPoint)
    (sl : Option Coord) :
    ((optimize_route dist pts sl).map RoutePoint.toPoint).Perm pts := by
  cases pts with
  | nil =>
    cases sl <;> simp [optimize_route]
  | cons tp0 rest =>
    cases sl with
    | some s =>
      simp only [optimize_route]
      exact nn_loop_perm dist (tp0 :: rest).length (tp0 :: rest) s le_rfl
    | none =>
      simp only [optimize_route, List.map_cons]
      exact (nn_loop_perm dist rest.length rest tp0.coordinates le_rfl).cons tp0

end RoutePlanner

namespace RoutePlanner

/-- A successfully extracted point carries exactly its source task, and that
task is not one the falsy-coordinate check drops. -/
theorem extract_task_point_ok_some (hashFn : String → ℤ) (t : LocationTask)
    (pt : TaskPoint) (h : extract_task_point hashFn t = .ok (some pt)) :
    pt.task = t ∧ dropped_coords t = false := by
  rcases hc : t.location_coordinates with _ | coords
  · unfold extract_task_point at h
    rw [hc] at h
    simp only [Except.ok.injEq, Option.some.injEq] at h
    constructor
    · rw [← h]
    · simp [dropped_coords, hc]
  · unfold extract_task_point at h
    rw [hc] at h
    simp only [] at h
    cases hct : coords.truthy with
    | false =>
      rw [hct] at h
      simp only [Bool.false_eq_true, if_false, Except.ok.injEq, Option.some.injEq] at h
      constructor
      · rw [← h]
      · simp [dropped_coords, hc, hct]
    | true =>
      rw [hct] at h
      simp only [if_true] at h
      cases htr : ((resolved_lat coords).truthy && (resolved_lng coords).truthy) with
      | false =>
        rw [htr] at h
        simp at h
      | true =>
        rw [htr] at h
        simp only [if_true] at h
        cases hf1 : pyFloat (resolved_lat coords) with
        | error e => rw [hf1] at h; simp at h
        | ok la =>
          rw [hf1] at h
          cases hf2 : pyFloat (resolved_lng coords) with
          | error e => rw [hf2] at h; simp at h
          | ok ln =>
            rw [hf2] at h
            simp only [Except.ok.injEq, Option.some.injEq] at h
            constructor
            · rw [← h]
            · simp only [dropped_coords, hc, hct, Bool.true_and]
              simp only [Bool.and_eq_true] at htr
              simp [htr.1, htr.2]

/-- A dropped task yields `ok none` from the extraction step: no fallback
coordinates and no error. -/
theorem extract_task_point_dropped (hashFn : String → ℤ) (t : LocationTask)
    (hdrop : dropped_coords t = true) :
    extract_task_point hashFn t = .ok Option.none := by
  unfold dropped_coords at hdrop
  rcases hc : t.location_coordinates with _ | coords
  · rw [hc] at hdrop; simp at hdrop
  · rw [hc] at hdrop
    simp only [Bool.and_eq_true] at hdrop
    have hfalse : ((resolved_lat coords).truthy && (resolved_lng coords).truthy) = false := by
      cases hx : (resolved_lat coords).truthy with
      | false => simp
      | true =>
        cases hy : (resolved_lng coords).truthy with
        | false => simp
        | true =>
          rw [hx, hy] at hdrop
          simp at hdrop
    unfold extract_task_point
    rw [hc]
    simp [hdrop.1, hfalse]

/-- The extraction loop produces at most one point per task. -/
theorem extract_points_length_le (hashFn : String → ℤ) :
    ∀ (ts : List LocationTask) (pts : List TaskPoint),
      extract_points hashFn ts = .ok pts → pts.length ≤ ts.length := by
  intro ts
  induction ts with
  | nil =>
    intro pts h
    simp only [extract_points, Except.ok.injEq] at h
    simp [← h]
  | cons t ts ih =>
    intro pts h
    unfold extract_points at h
    cases he : extract_task_point hashFn t with
    | error e => rw [he] at h; simp at h
    | ok p =>
      rw [he] at h
      cases hr : extract_points hashFn ts with
      | error e => rw [hr] at h; simp at h
      | ok rest =>
        rw [hr] at h
        cases p with
        | none =>
          simp only [Except.ok.injEq] at h
          have := ih rest hr
          simp only [← h, List.length_cons]
          omega
        | some pt =>
          simp only [Except.ok.injEq] at h
          have := ih rest hr
          simp only [← h, List.length_cons]
          omega

/-- When no task was dropped (the extraction kept as many points as tasks),
the extracted points carry exactly the input tasks in order. -/
theorem extract_points_tasks (hashFn : String → ℤ) :
    ∀ (ts : List LocationTask) (pts : List TaskPoint),
      extract_points hashFn ts = .ok pts → pts.length = ts.length →
      pts.map TaskPoint.task = ts := by
  intro ts
  induction ts with
  | nil =>
    intro pts h hlen
    simp only [extract_points, Except.ok.injEq] at h
    simp [← h]
  | cons t ts ih =>
    intro pts h hlen
    unfold extract_points at h
    cases he : extract_task_point hashFn t with
    | error e => rw [he] at h; simp at h
    | ok p =>
      rw [he] at h
      cases hr : extract_points hashFn ts with
      | error e => rw [hr] at h; simp at h
      | ok rest =>
        rw [hr] at h
        cases p with
        | none =>
          simp only [Except.ok.injEq] at h
          have hle := extract_points_length_le hashFn ts rest hr
          rw [← h] at hlen
          simp only [List.length_cons] at hlen
          omega
        | some pt =>
          simp only [Except.ok.injEq] at h
          have htask := (extract_task_point_ok_some hashFn t pt he).1
          rw [← h]
          simp only [List.map_cons, htask, List.cons.injEq, true_and]
          apply ih rest hr
          rw [← h] at hlen
          simp only [List.length_cons] at hlen
          omega

/-- Every extracted point's task passed the falsy-coordinate check. -/
theorem extract_points_not_dropped (hashFn : String → ℤ) :
    ∀ (ts : List LocationTask) (pts : List TaskPoint),
      extract_points hashFn ts = .ok pts →
      ∀ p, p ∈ pts → dropped_coords p.task = false := by
  intro ts
  induction ts with
  | nil =>
    intro pts h p hp
    simp only [extract_points, Except.ok.injEq] at h
    rw [← h] at hp
    simp at hp
  | cons t ts ih =>
    intro pts h p hp
    unfold extract_points at h
    cases he : extract_task_point hashFn t with
    | error e => rw [he] at h; simp at h
    | ok q =>
      rw [he] at h
      cases hr : extract_points hashFn ts with
      | error e => rw [hr] at h; simp at h
      | ok rest =>
        rw [hr] at h
        cases q with
        | none =>
          simp only [Except.ok.injEq] at h
          rw [← h] at hp
          exact ih rest hr p hp
        | some pt =>
          simp only [Except.ok.injEq] at h
          rw [← h] at hp
          rcases List.mem_cons.mp hp with hpe | hpm
          · subst hpe
            have hs := extract_task_point_ok_some hashFn t p he
            rw [hs.1]
            exact hs.2
          · exact ih rest hr p hpm

end RoutePlanner

deriving instance DecidableEq for Except

namespace RoutePlanner

/-- The first early return of `plan_route` (lines 45–52): fewer than 2
locatable tasks. -/
theorem plan_route_insufficient_eq (dist : Coord → Coord → ℚ) (hashFn : String → ℤ)
    (tasks : List LocationTask) (sl : Option Coord)
    (h2 : (tasks.filter LocationTask.locatable).length < 2) :
    plan_route dist hashFn tasks sl =
      .ok { optimized := false
            message := "Need at least 2 tasks with locations to plan a route"
            tasks := some (tasks.filter LocationTask.locatable)
            total_distance_km := some 0
            estimated_time_minutes := some 0 } := by
  simp only [plan_route]
  rw [if_pos h2]

/-- The second early return of `plan_route` (lines 74–79): at least 2
locatable tasks but fewer than 2 extracted points.  Note the returned
dictionary carries no `total_distance_km` and no `estimated_time_minutes`
key. -/
theorem plan_route_noextract_eq (dist : Coord → Coord → ℚ) (hashFn : String → ℤ)
    (tasks : List LocationTask) (sl : Option Coord) (pts : List TaskPoint)
    (h2 : ¬ (tasks.filter LocationTask.locatable).length < 2)
    (hext : extract_points hashFn (tasks.filter LocationTask.locatable) = .ok pts)
    (hp : pts.length < 2) :
    plan_route dist hashFn tasks sl =
      .ok { optimized := false
            message := "Could not extract location data for route planning"
            tasks := some (tasks.filter LocationTask.locatable) } := by
  simp only [plan_route]
  rw [if_neg h2, hext]
  dsimp only
  rw [if_pos hp]

/-- The optimized branch of `plan_route` (lines 81–95). -/
theorem plan_route_optimized_eq (dist : Coord → Coord → ℚ) (hashFn : String → ℤ)
    (tasks : List LocationTask) (sl : Option Coord) (pts : List TaskPoint)
    (h2 : ¬ (tasks.filter LocationTask.locatable).length < 2)
    (hext : extract_points hashFn (tasks.filter LocationTask.locatable) = .ok pts)
    (hp : ¬ pts.length < 2) :
    plan_route dist hashFn tasks sl =
      .ok { optimized := true
            route := some (optimize_route dist pts sl)
            total_distance_km :=
              some (round2 (calculate_total_distance (optimize_route dist pts sl)))
            estimated_time_minutes :=
              some (estimate_total_time (optimize_route dist pts sl)
                (calculate_total_distance (optimize_route dist pts sl)))
            task_count := some (optimize_route dist pts sl).length
            message := "Optimized route for " ++
              toString (optimize_route dist pts sl).length ++ " errands" } := by
  simp only [plan_route]
  rw [if_neg h2, hext]
  dsimp only
  rw [if_neg hp]

end RoutePlanner

/-- Witness for the greedy-step theorem at a concrete input: current location
`(0, 0)`, remaining `[pointA, pointB]`, probe index `j = 1`. -/
theorem nn_loop_greedy_step_witness :
    (1 < ([pointA, pointB] : List TaskPoint).length) ∧
    ((RoutePlanner.scan_nearest unitDist (0, 0) [pointB] 1 0
        (unitDist (0, 0) pointA.coordinates)).1 < ([pointA, pointB] : List TaskPoint).length ∧
      (RoutePlanner.scan_nearest unitDist (0, 0) [pointB] 1 0
          (unitDist (0, 0) pointA.coordinates)).2 =
        unitDist (0, 0)
          (([pointA, pointB].getD
              (RoutePlanner.scan_nearest unitDist (0, 0) [pointB] 1 0
                (unitDist (0, 0) pointA.coordinates)).1
              pointA).coordinates) ∧
      (RoutePlanner.scan_nearest unitDist (0, 0) [pointB] 1 0
          (unitDist (0, 0) pointA.coordinates)).2 ≤
        unitDist (0, 0) (([pointA, pointB].getD 1 pointA).coordinates) ∧
      (1 < (RoutePlanner.scan_nearest unitDist (0, 0) [pointB] 1 0
          (unitDist (0, 0) pointA.coordinates)).1 →
        (RoutePlanner.scan_nearest unitDist (0, 0) [pointB] 1 0
            (unitDist (0, 0) pointA.coordinates)).2 <
          unitDist (0, 0) (([pointA, pointB].getD 1 pointA).coordinates)) ∧
      RoutePlanner.nn_loop unitDist (0, 0) [pointA, pointB] =
        ⟨([pointA, pointB].getD
            (RoutePlanner.scan_nearest unitDist (0, 0) [pointB] 1 0
              (unitDist (0, 0) pointA.coordinates)).1
            pointA).task,
         ([pointA, pointB].getD
            (RoutePlanner.scan_nearest unitDist (0, 0) [pointB] 1 0
              (unitDist (0, 0) pointA.coordinates)).1
            pointA).coordinates,
         round2
           (RoutePlanner.scan_nearest unitDist (0, 0) [pointB] 1 0
             (unitDist (0, 0) pointA.coordinates)).2⟩ ::
        RoutePlanner.nn_loop unitDist
          (([pointA, pointB].getD
              (RoutePlanner.scan_nearest unitDist (0, 0) [pointB] 1 0
                (unitDist (0, 0) pointA.coordinates)).1
              pointA).coordinates)
          ([pointA, pointB].eraseIdx
            (RoutePlanner.scan_nearest unitDist (0, 0) [pointB] 1 0
              (unitDist (0, 0) pointA.coordinates)).1)) :=
  ⟨by decide, nn_loop_greedy_step unitDist (0, 0) pointA [pointB] 1 (by decide)⟩

/-- C2 (amended): for every input list whose locatable tasks all resolve to
coordinates (no task dropped by the falsy-coordinate check, no parse
failure) with N ≥ 2 resolved points, `plan_route` returns `optimized=true`
with a route of exactly N stops whose tasks are a permutation of the
locatable input tasks, and `task_count = N`. -/
theorem plan_route_permutation (dist : Coord → Coord → ℚ) (hashFn : String → ℤ)
    (tasks : List LocationTask) (sl : Option Coord) (pts : List TaskPoint)
    (hext : RoutePlanner.extract_points hashFn (tasks.filter LocationTask.locatable) = .ok pts)
    (hfull : pts.length = (tasks.filter LocationTask.locatable).length)
    (hN : 2 ≤ pts.length) :
    ∃ r rt, RoutePlanner.plan_route dist hashFn tasks sl = .ok r ∧
      r.optimized = true ∧
      r.route = some rt ∧
      rt.length = pts.length ∧
      (rt.map RoutePoint.task).Perm (tasks.filter LocationTask.locatable) ∧
      r.task_count = some pts.length := by
  have h2 : ¬ (tasks.filter LocationTask.locatable).length < 2 := by omega
  have hp : ¬ pts.length < 2 := by omega
  have hlen : (RoutePlanner.optimize_route dist pts sl).length = pts.length := by
    have h := (RoutePlanner.optimize_route_perm dist pts sl).length_eq
    simpa using h
  refine ⟨_, RoutePlanner.optimize_route dist pts sl,
    RoutePlanner.plan_route_optimized_eq dist hashFn tasks sl pts h2 hext hp,
    rfl, rfl, hlen, ?_, ?_⟩
  · have htasks := RoutePlanner.extract_points_tasks hashFn _ pts hext hfull
    rw [← htasks]
    have hperm := (RoutePlanner.optimize_route_perm dist pts sl).map TaskPoint.task
    rw [List.map_map] at hperm
    exact hperm
  · rw [hlen]

/-- C2 counterexample: three locatable tasks, one of which has the falsy
latitude `0`, give an optimized route of only 2 stops with `task_count = 2`,
not a 3-stop permutation of the locatable tasks. -/
theorem plan_route_locatable_count_cex :
    ([taskA, taskC, taskZeroLat].filter LocationTask.locatable).length = 3 ∧
    (RoutePlanner.plan_route unitDist zeroHash [taskA, taskC, taskZeroLat] none).map
      (fun r => (r.optimized, r.task_count)) = .ok (true, some 2) := by
  constructor
  · decide
  · decide

/-- Witness for the amended permutation theorem on `[taskA, taskB]`. -/
theorem plan_route_permutation_witness :
    RoutePlanner.extract_points zeroHash ([taskA, taskB].filter LocationTask.locatable) =
      .ok [pointA, pointB] ∧
    ([pointA, pointB] : List TaskPoint).length =
      ([taskA, taskB].filter LocationTask.locatable).length ∧
    2 ≤ ([pointA, pointB] : List TaskPoint).length ∧
    (∃ r rt, RoutePlanner.plan_route unitDist zeroHash [taskA, taskB] none = .ok r ∧
      r.optimized = true ∧
      r.route = some rt ∧
      rt.length = ([pointA, pointB] : List TaskPoint).length ∧
      (rt.map RoutePoint.task).Perm ([taskA, taskB].filter LocationTask.locatable) ∧
      r.task_count = some ([pointA, pointB] : List TaskPoint).length) :=
  ⟨by decide, by decide, by decide,
    plan_route_permutation unitDist zeroHash [taskA, taskB] none [pointA, pointB]
      (by decide) (by decide) (by decide)⟩

namespace RoutePlanner

/-- When a coordinate conversion raises, `plan_route` propagates the
exception (there is no `try`/`except` in the source). -/
theorem plan_route_error_eq (dist : Coord → Coord → ℚ) (hashFn : String → ℤ)
    (tasks : List LocationTask) (sl : Option Coord) (e : String)
    (h2 : ¬ (tasks.filter LocationTask.locatable).length < 2)
    (hext : extract_points hashFn (tasks.filter LocationTask.locatable) = .error e) :
    plan_route dist hashFn tasks sl = .error e := by
  simp only [plan_route]
  rw [if_neg h2, hext]

end RoutePlanner

/-- C3 (evidence for the code bug): a locatable task whose latitude value is
the unparsable string `"abc"` makes `plan_route` abort with the conversion
error instead of falling back to hash-derived coordinates — the extraction
loop calls `float` with no `try`/`except`. -/
theorem plan_route_malformed_aborts :
    LocationTask.locatable taskBadCoord = true ∧
    RoutePlanner.plan_route unitDist zeroHash [taskBadCoord, taskPlain] none =
      .error "could not convert string to float: abc" :=
  ⟨by decide, by decide⟩

/-- C4 (amended): when fewer than 2 tasks are locatable, `plan_route`
returns `optimized=false` with `total_distance_km=0`,
`estimated_time_minutes=0` and an explanatory message; when at least 2 are
locatable but fewer than 2 resolve to coordinates (and no coordinate value
fails to parse), it returns `optimized=false` with an explanatory message
but without the `total_distance_km` and `estimated_time_minutes` keys. -/
theorem plan_route_underfilled (dist : Coord → Coord → ℚ) (hashFn : String → ℤ)
    (tasks : List LocationTask) (sl : Option Coord) :
    ((tasks.filter LocationTask.locatable).length < 2 →
      RoutePlanner.plan_route dist hashFn tasks sl =
        .ok { optimized := false
              message := "Need at least 2 tasks with locations to plan a route"
              tasks := some (tasks.filter LocationTask.locatable)
              total_distance_km := some 0
              estimated_time_minutes := some 0 }) ∧
    (∀ pts, ¬ (tasks.filter LocationTask.locatable).length < 2 →
      RoutePlanner.extract_points hashFn (tasks.filter LocationTask.locatable) = .ok pts →
      pts.length < 2 →
      RoutePlanner.plan_route dist hashFn tasks sl =
        .ok { optimized := false
              message := "Could not extract location data for route planning"
              tasks := some (tasks.filter LocationTask.locatable) }) :=
  ⟨fun h2 => RoutePlanner.plan_route_insufficient_eq dist hashFn tasks sl h2,
   fun pts h2 hext hp => RoutePlanner.plan_route_noextract_eq dist hashFn tasks sl pts h2 hext hp⟩

/-- C4 counterexample: two locatable tasks whose coordinates are dropped by
the falsy-latitude check resolve to 0 < 2 points, and the returned
dictionary has `optimized=false` but carries no `total_distance_km` and no
`estimated_time_minutes` key at all (the claim promises both equal to 0). -/
theorem plan_route_missing_fields_cex :
    RoutePlanner.extract_points zeroHash
      ([taskZeroLat, taskZeroLat'].filter LocationTask.locatable) = .ok [] ∧
    (RoutePlanner.plan_route unitDist zeroHash [taskZeroLat, taskZeroLat'] none).map
      (fun r => (r.optimized, r.total_distance_km, r.estimated_time_minutes)) =
      .ok (false, Option.none, Option.none) :=
  ⟨by decide, by decide⟩

/-- Witness for the first branch of the amended C4 theorem: no tasks. -/
theorem plan_route_underfilled_witness :
    (([] : List LocationTask).filter LocationTask.locatable).length < 2 ∧
    RoutePlanner.plan_route unitDist zeroHash [] none =
      .ok { optimized := false
            message := "Need at least 2 tasks with locations to plan a route"
            tasks := some (([] : List LocationTask).filter LocationTask.locatable)
            total_distance_km := some 0
            estimated_time_minutes := some 0 } :=
  ⟨by decide, (plan_route_underfilled unitDist zeroHash [] none).1 (by decide)⟩

/-- C8: on every `optimized=false` result produced by `plan_route`,
`format_route_for_display` returns exactly the result's `message` string. -/
theorem format_route_not_optimized (dist : Coord → Coord → ℚ) (hashFn : String → ℤ)
    (tasks : List LocationTask) (sl : Option Coord) (r : PlanResult)
    (hr : RoutePlanner.plan_route dist hashFn tasks sl = .ok r)
    (hopt : r.optimized = false) :
    RoutePlanner.format_route_for_display r = r.message := by
  simp [RoutePlanner.format_route_for_display, hopt]

/-- Witness for the display theorem on the empty-input result. -/
theorem format_route_not_optimized_witness :
    RoutePlanner.plan_route unitDist zeroHash [] none = .ok resultEmpty ∧
    resultEmpty.optimized = false ∧
    RoutePlanner.format_route_for_display resultEmpty = resultEmpty.message :=
  ⟨by decide, rfl,
    format_route_not_optimized unitDist zeroHash [] none resultEmpty (by decide) rfl⟩

/-- C9: a locatable task whose truthy coordinates dictionary resolves to a
falsy latitude or longitude (number `0`, empty string, `None`, or missing
under all accepted spellings) is silently excluded: the extraction step
yields no point for it (`ok none` — neither hash-derived fallback
coordinates nor an error), splicing it into any task list leaves the
extracted points unchanged, the task is nevertheless locatable, and no stop
of any route `plan_route` returns ever carries such a task. -/
theorem extract_silent_drop (hashFn : String → ℤ) (t : LocationTask)
    (hdrop : dropped_coords t = true) :
    RoutePlanner.extract_task_point hashFn t = .ok Option.none ∧
    (∀ ts₁ ts₂, RoutePlanner.extract_points hashFn (ts₁ ++ t :: ts₂) =
      RoutePlanner.extract_points hashFn (ts₁ ++ ts₂)) ∧
    t.locatable = true ∧
    (∀ dist tasks sl r rt, RoutePlanner.plan_route dist hashFn tasks sl = .ok r →
      r.route = some rt → ∀ s, s ∈ rt → dropped_coords s.task = false) := by
  refine ⟨RoutePlanner.extract_task_point_dropped hashFn t hdrop, ?_, ?_, ?_⟩
  · intro ts₁ ts₂
    induction ts₁ with
    | nil =>
      simp only [List.nil_append]
      conv_lhs => rw [RoutePlanner.extract_points]
      rw [RoutePlanner.extract_task_point_dropped hashFn t hdrop]
      cases hr : RoutePlanner.extract_points hashFn ts₂ with
      | error e => rfl
      | ok rest => rfl
    | cons a ts ih =>
      simp only [List.cons_append]
      unfold RoutePlanner.extract_points
      rw [ih]
  · unfold dropped_coords at hdrop
    rcases hc : t.location_coordinates with _ | coords
    · rw [hc] at hdrop; simp at hdrop
    · rw [hc] at hdrop
      simp only [Bool.and_eq_true] at hdrop
      simp [LocationTask.locatable, hc, hdrop.1]
  · intro dist tasks sl r rt hr hrt s hs
    by_cases h2 : (tasks.filter LocationTask.locatable).length < 2
    · rw [RoutePlanner.plan_route_insufficient_eq dist hashFn tasks sl h2] at hr
      have heq := Except.ok.inj hr
      rw [← heq] at hrt
      simp at hrt
    · cases hext : RoutePlanner.extract_points hashFn (tasks.filter LocationTask.locatable) with
      | error e =>
        rw [RoutePlanner.plan_route_error_eq dist hashFn tasks sl e h2 hext] at hr
        simp at hr
      | ok pts =>
        by_cases hp : pts.length < 2
        · rw [RoutePlanner.plan_route_noextract_eq dist hashFn tasks sl pts h2 hext hp] at hr
          have heq := Except.ok.inj hr
          rw [← heq] at hrt
          simp at hrt
        · rw [RoutePlanner.plan_route_optimized_eq dist hashFn tasks sl pts h2 hext hp] at hr
          have heq := Except.ok.inj hr
          rw [← heq] at hrt
          simp only [Option.some.injEq] at hrt
          have hmem : s.toPoint ∈ pts := by
            have hperm := RoutePlanner.optimize_route_perm dist pts sl
            have hin : s.toPoint ∈
                (RoutePlanner.optimize_route dist pts sl).map RoutePoint.toPoint := by
              rw [hrt]
              exact List.mem_map_of_mem RoutePoint.toPoint hs
            exact hperm.mem_iff.mp hin
          have hnd := RoutePlanner.extract_points_not_dropped hashFn _ pts hext s.toPoint hmem
          exact hnd

/-- Witness: the concrete task with latitude `0` is locatable yet dropped. -/
theorem extract_silent_drop_witness :
    dropped_coords taskZeroLat = true ∧
    RoutePlanner.extract_task_point zeroHash taskZeroLat = .ok Option.none ∧
    LocationTask.locatable taskZeroLat = true :=
  ⟨by decide, (extract_silent_drop zeroHash taskZeroLat (by decide)).1,
    (extract_silent_drop zeroHash taskZeroLat (by decide)).2.2.1⟩

namespace RoutePlanner

/-- Folding addition of a projected value equals the initial value plus the
sum of the projections. -/
theorem foldl_add_eq_sum {α : Type} (f : α → ℚ) :
    ∀ (l : List α) (c : ℚ), l.foldl (fun acc x => acc + f x) c = c + (l.map f).sum := by
  intro l
  induction l with
  | nil => intro c; simp
  | cons x xs ih =>
    intro c
    simp only [List.foldl_cons, List.map_cons, List.sum_cons, ih, add_assoc]

/-- The total-distance accumulator is the sum of the hop distances. -/
theorem calculate_total_distance_eq_sum (route : List RoutePoint) :
    calculate_total_distance route =
      (route.map (fun s => s.distance_from_previous_km)).sum := by
  unfold calculate_total_distance
  rw [foldl_add_eq_sum (fun s => s.distance_from_previous_km) route 0]
  simp

/-- The time estimate in closed form: travel time at 40 km/h plus the sum of
the per-task durations (default 15) plus 5 minutes per stop, truncated. -/
theorem estimate_total_time_eq (route : List RoutePoint) (td : ℚ) :
    estimate_total_time route td =
      pyInt (td / 40 * 60 +
        (route.map (fun s => s.task.estimated_duration_minutes.getD 15)).sum +
        (route.length : ℚ) * 5) := by
  unfold estimate_total_time
  rw [foldl_add_eq_sum (fun s => s.task.estimated_duration_minutes.getD 15) route 0]
  norm_num

/-- Rounding to 2 decimals fixes every integer multiple of `1 / 100`. -/
theorem round2_intCast_div (n : ℤ) : round2 ((n : ℚ) / 100) = (n : ℚ) / 100 := by
  have h1 : ((n : ℚ) / 100) * 100 = (n : ℚ) := by
    field_simp
  have h2 : round_half_even ((n : ℚ)) = n := by
    unfold round_half_even
    simp only [Int.floor_intCast, sub_self]
    norm_num
  unfold round2
  rw [h1, h2]

/-- A sum of multiples of `1 / 100` is a multiple of `1 / 100`. -/
theorem sum_centi :
    ∀ (l : List ℚ), (∀ x, x ∈ l → ∃ n : ℤ, x = (n : ℚ) / 100) →
      ∃ N : ℤ, l.sum = (N : ℚ) / 100 := by
  intro l
  induction l with
  | nil => intro h; exact ⟨0, by simp⟩
  | cons x xs ih =>
    intro h
    obtain ⟨n, hn⟩ := h x (List.mem_cons_self x xs)
    obtain ⟨N, hN⟩ := ih (fun y hy => h y (List.mem_cons_of_mem x hy))
    refine ⟨n + N, ?_⟩
    rw [List.sum_cons, hn, hN]
    push_cast
    ring

/-- Every hop distance the optimizer emits is a multiple of `1 / 100` (the
seed stop carries `0.0` and every other stop a 2-decimal rounding). -/
theorem optimize_route_hops_centi (dist : Coord → Coord → ℚ) (pts : List TaskPoint)
    (sl : Option Coord) :
    ∀ s, s ∈ optimize_route dist pts sl →
      ∃ n : ℤ, s.distance_from_previous_km = (n : ℚ) / 100 := by
  have hloop : ∀ (fuel : ℕ) (current : Coord) (rem : List TaskPoint) (s : RoutePoint),
      s ∈ nn_loop_fuel dist fuel current rem →
      ∃ n : ℤ, s.distance_from_previous_km = (n : ℚ) / 100 := by
    intro fuel
    induction fuel with
    | zero => intro current rem s hs; simp [nn_loop_fuel] at hs
    | succ f ih =>
      intro current rem s hs
      cases rem with
      | nil => simp [nn_loop_fuel] at hs
      | cons r0 rest =>
        simp only [nn_loop_fuel] at hs
        rcases List.mem_cons.mp hs with he | hm
        · rw [he]
          exact ⟨round_half_even
            ((scan_nearest dist current rest 1 0 (dist current r0.coordinates)).2 * 100), rfl⟩
        · exact ih _ _ s hm
  intro s hs
  cases pts with
  | nil => cases sl <;> simp [optimize_route] at hs
  | cons tp0 rest =>
    cases sl with
    | some st =>
      simp only [optimize_route, nn_loop] at hs
      exact hloop _ _ _ s hs
    | none =>
      simp only [optimize_route, nn_loop] at hs
      rcases List.mem_cons.mp hs with he | hm
      · refine ⟨0, ?_⟩
        rw [he]
        norm_num
      · exact hloop _ _ _ s hm

/-- Inversion: an `optimized=true` result of `plan_route` comes from the
optimized branch, with its fields determined by the extracted points. -/
theorem plan_route_ok_optimized (dist : Coord → Coord → ℚ) (hashFn : String → ℤ)
    (tasks : List LocationTask) (sl : Option Coord) (r : PlanResult)
    (hr : plan_route dist hashFn tasks sl = .ok r)
    (hopt : r.optimized = true) :
    ∃ pts, extract_points hashFn (tasks.filter LocationTask.locatable) = .ok pts ∧
      ¬ (tasks.filter LocationTask.locatable).length < 2 ∧ ¬ pts.length < 2 ∧
      r = { optimized := true
            route := some (optimize_route dist pts sl)
            total_distance_km :=
              some (round2 (calculate_total_distance (optimize_route dist pts sl)))
            estimated_time_minutes :=
              some (estimate_total_time (optimize_route dist pts sl)
                (calculate_total_distance (optimize_route dist pts sl)))
            task_count := some (optimize_route dist pts sl).length
            message := "Optimized route for " ++
              toString (optimize_route dist pts sl).length ++ " errands" } := by
  by_cases h2 : (tasks.filter LocationTask.locatable).length < 2
  · rw [plan_route_insufficient_eq dist hashFn tasks sl h2] at hr
    have heq := Except.ok.inj hr
    rw [← heq] at hopt
    simp at hopt
  · cases hext : extract_points hashFn (tasks.filter LocationTask.locatable) with
    | error e =>
      rw [plan_route_error_eq dist hashFn tasks sl e h2 hext] at hr
      simp at hr
    | ok pts =>
      by_cases hp : pts.length < 2
      · rw [plan_route_noextract_eq dist hashFn tasks sl pts h2 hext hp] at hr
        have heq := Except.ok.inj hr
        rw [← heq] at hopt
        simp at hopt
      · rw [plan_route_optimized_eq dist hashFn tasks sl pts h2 hext hp] at hr
        exact ⟨pts, hext ▸ rfl, h2, hp, (Except.ok.inj hr).symm⟩

end RoutePlanner

/-- C6: on every optimized result of `plan_route`, `total_distance_km`
equals the sum of the stops' `distance_from_previous_km` values rounded to 2
decimal places. -/
theorem plan_route_total_distance (dist : Coord → Coord → ℚ) (hashFn : String → ℤ)
    (tasks : List LocationTask) (sl : Option Coord) (r : PlanResult)
    (rt : List RoutePoint)
    (hr : RoutePlanner.plan_route dist hashFn tasks sl = .ok r)
    (hopt : r.optimized = true)
    (hrt : r.route = some rt) :
    r.total_distance_km =
      some (round2 ((rt.map (fun s => s.distance_from_previous_km)).sum)) := by
  obtain ⟨pts, hext, h2, hp, hre⟩ :=
    RoutePlanner.plan_route_ok_optimized dist hashFn tasks sl r hr hopt
  subst hre
  have hrt' : RoutePlanner.optimize_route dist pts sl = rt := by
    simpa using hrt
  subst hrt'
  show some (round2 (RoutePlanner.calculate_total_distance
      (RoutePlanner.optimize_route dist pts sl))) = _
  rw [RoutePlanner.calculate_total_distance_eq_sum]

unseal Rat.add Rat.sub Rat.mul Rat.inv in
/-- Witness for the total-distance theorem on `[taskA, taskB]`. -/
theorem plan_route_total_distance_witness :
    RoutePlanner.plan_route unitDist zeroHash [taskA, taskB] none = .ok resultAB ∧
    resultAB.optimized = true ∧
    resultAB.route = some routeAB ∧
    resultAB.total_distance_km =
      some (round2 ((routeAB.map (fun s => s.distance_from_previous_km)).sum)) :=
  ⟨by decide, rfl, rfl,
    plan_route_total_distance unitDist zeroHash [taskA, taskB] none resultAB routeAB
      (by decide) rfl rfl⟩

/-- C5: on every optimized result of `plan_route`, `estimated_time_minutes`
equals `int(travel_time + task_time + buffer_time)` with
`travel_time = (total_distance_km / 40) * 60`, `task_time` the sum of the
stops' `estimated_duration_minutes` (default 15) and `buffer_time` 5 minutes
per stop. -/
theorem plan_route_estimated_time (dist : Coord → Coord → ℚ) (hashFn : String → ℤ)
    (tasks : List LocationTask) (sl : Option Coord) (r : PlanResult)
    (rt : List RoutePoint) (td : ℚ)
    (hr : RoutePlanner.plan_route dist hashFn tasks sl = .ok r)
    (hopt : r.optimized = true)
    (hrt : r.route = some rt)
    (htd : r.total_distance_km = some td) :
    r.estimated_time_minutes =
      some (pyInt (td / 40 * 60 +
        (rt.map (fun s => s.task.estimated_duration_minutes.getD 15)).sum +
        (rt.length : ℚ) * 5)) := by
  obtain ⟨pts, hext, h2, hp, hre⟩ :=
    RoutePlanner.plan_route_ok_optimized dist hashFn tasks sl r hr hopt
  subst hre
  have hrt' : RoutePlanner.optimize_route dist pts sl = rt := by
    simpa using hrt
  subst hrt'
  have htd' : td = round2 (RoutePlanner.calculate_total_distance
      (RoutePlanner.optimize_route dist pts sl)) := by
    have h := htd
    simp only [Option.some.injEq] at h
    exact h.symm
  have hc : ∃ N : ℤ, RoutePlanner.calculate_total_distance
      (RoutePlanner.optimize_route dist pts sl) = (N : ℚ) / 100 := by
    rw [RoutePlanner.calculate_total_distance_eq_sum]
    apply RoutePlanner.sum_centi
    intro x hx
    obtain ⟨s, hs, hxs⟩ := List.mem_map.mp hx
    obtain ⟨n, hn⟩ := RoutePlanner.optimize_route_hops_centi dist pts sl s hs
    exact ⟨n, by rw [← hxs, hn]⟩
  obtain ⟨N, hN⟩ := hc
  have hround : round2 (RoutePlanner.calculate_total_distance
      (RoutePlanner.optimize_route dist pts sl)) =
      RoutePlanner.calculate_total_distance (RoutePlanner.optimize_route dist pts sl) := by
    rw [hN, RoutePlanner.round2_intCast_div]
  show some (RoutePlanner.estimate_total_time (RoutePlanner.optimize_route dist pts sl)
      (RoutePlanner.calculate_total_distance (RoutePlanner.optimize_route dist pts sl))) = _
  rw [RoutePlanner.estimate_total_time_eq, htd', hround]

unseal Rat.add Rat.sub Rat.mul Rat.inv in
/-- Witness for the time-estimate theorem: 2 stops of 15 minutes each and a
total distance of 10 km give `int((10/40)*60 + 30 + 10) = 55` minutes. -/
theorem plan_route_estimated_time_witness :
    RoutePlanner.plan_route unitDist zeroHash [taskA, taskB] none = .ok resultAB ∧
    resultAB.optimized = true ∧
    resultAB.route = some routeAB ∧
    resultAB.total_distance_km = some 10 ∧
    resultAB.estimated_time_minutes =
      some (pyInt ((10 : ℚ) / 40 * 60 +
        (routeAB.map (fun s => s.task.estimated_duration_minutes.getD 15)).sum +
        (routeAB.length : ℚ) * 5)) ∧
    resultAB.estimated_time_minutes = some 55 :=
  ⟨by decide, rfl, rfl, rfl,
    plan_route_estimated_time unitDist zeroHash [taskA, taskB] none resultAB routeAB 10
      (by decide) rfl rfl rfl,
    rfl⟩

namespace RoutePlanner

/-- Swapping the two points leaves the haversine intermediate `a` unchanged:
the latitude and longitude differences only flip sign, squared sines absorb
the sign, and the cosine product commutes. -/
theorem hav_a_symm (p q : ℝ × ℝ) : hav_a p q = hav_a q p := by
  have key : ∀ u v : ℝ, Real.sin (radians (u - v) / 2) ^ 2 =
      Real.sin (radians (v - u) / 2) ^ 2 := by
    intro u v
    have h : radians (u - v) / 2 = -(radians (v - u) / 2) := by
      unfold radians
      ring
    rw [h, Real.sin_neg]
    ring
  unfold hav_a
  rw [key q.1 p.1, key q.2 p.2,
    mul_comm (Real.cos (radians p.1)) (Real.cos (radians q.1))]

end RoutePlanner

/-- C7: the haversine distance of the source is symmetric in its two points,
and it is exactly the formula the spec states — Earth radius 6371.0 km,
`a = sin²(Δlat/2) + cos(lat1)·cos(lat2)·sin²(Δlon/2)`,
`c = 2·atan2(√a, √(1−a))`, `distance = R·c`. -/
theorem haversine_symm_spec :
    (∀ p q : ℝ × ℝ, RoutePlanner.haversine_distance p q =
      RoutePlanner.haversine_distance q p) ∧
    (∀ p q : ℝ × ℝ, RoutePlanner.haversine_distance p q =
      RoutePlanner.haversine_spec p q) := by
  constructor
  · intro p q
    unfold RoutePlanner.haversine_distance
    rw [RoutePlanner.hav_a_symm p q]
  · intro p q
    rfl
